import Mathlib

/-!
# Verification of torcheeg's DANN trainer and AMIGOS dataset retrieval

A shallow embedding of the two source files

* `torcheeg/trainers/domain_adaption/dann.py` — the `GradientReverse`
  autograd function and the `DANNTrainer` (training step, loader pairing,
  adaptive reversal coefficient, metric logging, `num_classes` resolution);
* `torcheeg/datasets/module/emotion_recognition/amigos.py` — the
  `AMIGOSDataset.__getitem__` retrieval path.

Tensors are modelled as lists of rational (or real) rows; the external
deep-learning framework's modules (extractor, classifier, domain
classifier) and the cross-entropy loss are abstract function parameters,
since the framework is an external collaborator of this code.  The
orchestration logic — what this repository actually implements — is
translated line by line.
-/

namespace Torcheeg

/-- A batch is a list of rows (vectors of rational scalars). -/
abbrev Batch := List (List ℚ)

/-! ## `GradientReverse` (dann.py lines 15–24) -/

namespace GradientReverse

/-- `GradientReverse.forward(ctx, x, alpha)` returns `x.view_as(x)`:
the identity on the tensor, for any tensor type and any `alpha`. -/
def forward {T A : Type} (x : T) (_alpha : A) : T := x

/-- `GradientReverse.backward(ctx, grad_output)` returns
`(grad_output.neg() * ctx.alpha, None)`: the incoming gradient negated and
scaled elementwise by the saved `alpha`, and no gradient for `alpha`. -/
def backward (alpha : ℝ) (grad_output : List (List ℝ)) :
    List (List ℝ) × Option (List (List ℝ)) :=
  (grad_output.map (fun row => row.map (fun v => -v * alpha)), none)

end GradientReverse

/-! ## Adaptive reversal coefficient (dann.py lines 182–187) -/

/-- The sigmoid ramp `2 / (1 + exp (-10 p)) - 1` applied to a training
progress fraction `p`. -/
noncomputable def gammaAdaptive (p : ℝ) : ℝ :=
  2 / (1 + Real.exp (-10 * p)) - 1

/-- The reversal coefficient computed by `on_training_step`: when
`adaption_factor` is set,
`p = float(batch_id + epoch_id * num_batches) / num_epochs / num_batches`
and `gamma = 2. / (1. + np.exp(-10 * p)) - 1`; otherwise `gamma = 1.0`. -/
noncomputable def gammaOf (adaption_factor : Bool)
    (batch_id epoch_id num_batches num_epochs : ℕ) : ℝ :=
  if adaption_factor then
    let p : ℝ :=
      ((batch_id : ℝ) + (epoch_id : ℝ) * (num_batches : ℝ)) /
        (num_epochs : ℝ) / (num_batches : ℝ)
    2 / (1 + Real.exp (-10 * p)) - 1
  else 1.0

/-! ## `num_classes` resolution in `DANNTrainer.__init__`
(dann.py lines 143–148) -/

/-- Resolution of the trainer's `num_classes`: the passed value when given;
else the classifier's `num_classes` attribute when present (`hasattr` is
modelled by an `Option`); else a `ValueError`. -/
def resolveNumClasses (num_classes : Option ℕ)
    (classifier_num_classes : Option ℕ) : Except String ℕ :=
  match num_classes with
  | some n => Except.ok n
  | none =>
    match classifier_num_classes with
    | some n => Except.ok n
    | none => Except.error "The number of classes is not specified."

/-- The optimizer's parameter collection in `DANNTrainer.__init__`:
`chain(extractor.parameters(), classifier.parameters(),
domain_classifier.parameters())`. -/
def optimizerParams {P : Type} (extractor_params classifier_params
    domain_classifier_params : List P) : List P :=
  extractor_params ++ classifier_params ++ domain_classifier_params

/-! ## Metric state (`torchmetrics.MeanMetric` / `Accuracy`) -/

/-- State of a `torchmetrics.MeanMetric`: the accumulated values. -/
structure MeanMetricState where
  vals : List ℚ
  deriving Repr, DecidableEq

/-- `MeanMetric.reset()`. -/
def MeanMetricState.reset : MeanMetricState := ⟨[]⟩

/-- `MeanMetric.update(v)`. -/
def MeanMetricState.update (s : MeanMetricState) (v : ℚ) : MeanMetricState :=
  ⟨s.vals ++ [v]⟩

/-- `MeanMetric.compute()`: the mean of the accumulated values. -/
def MeanMetricState.compute (s : MeanMetricState) : ℚ :=
  s.vals.sum / (s.vals.length : ℚ)

/-- State of a `torchmetrics.Accuracy`: matched and total prediction
counts. -/
structure AccuracyState where
  correct : ℕ
  total : ℕ
  deriving Repr, DecidableEq

/-- `Accuracy.reset()`. -/
def AccuracyState.reset : AccuracyState := ⟨0, 0⟩

/-- `Accuracy.update(preds, target)` for top-1 multiclass accuracy on
already-argmaxed predictions. -/
def AccuracyState.update (s : AccuracyState) (preds target : List ℕ) :
    AccuracyState :=
  ⟨s.correct + (preds.zip target).countP (fun pt => pt.1 == pt.2),
   s.total + target.length⟩

/-- `Accuracy.compute()`. -/
def AccuracyState.compute (s : AccuracyState) : ℚ :=
  (s.correct : ℚ) / (s.total : ℚ)

/-- `tensor.argmax(1)` applied to one row: the index of the first maximal
entry. -/
def argmaxIdx (l : List ℚ) : ℕ :=
  match l with
  | [] => 0
  | x :: rest =>
    (rest.foldl
      (fun (acc : ℕ × ℕ × ℚ) v =>
        if acc.2.2 < v then (acc.2.1, acc.2.1 + 1, v)
        else (acc.1, acc.2.1 + 1, acc.2.2))
      (0, 1, x)).1

/-- `math.ceil(num_batches / 5)` on a natural number. -/
def logStep (num_batches : ℕ) : ℕ := (num_batches + 4) / 5

/-! ## `DANNTrainer.on_training_step` (dann.py lines 167–231) -/

/-- The three modules held by the trainer, as abstract batch functions
over the external framework. -/
structure DANNModules where
  extractor : Batch → Batch
  classifier : Batch → Batch
  domain_classifier : Batch → Batch

/-- Everything one call of `on_training_step` computes or does: the loss
values, the reversal coefficient, the losses on which `backward()` was
called, how many `optimizer.step()` calls were made, the train-metric
states after the step, and the logged `(loss, accuracy)` pair when this
step logged. -/
structure StepResult where
  task_loss : ℚ
  disc_loss_source : ℚ
  disc_loss_target : ℚ
  dann_loss : ℚ
  loss : ℚ
  gamma : ℝ
  backward_losses : List ℚ
  optimizer_steps : ℕ
  train_loss : MeanMetricState
  train_accuracy : AccuracyState
  logged : Option (ℚ × ℚ)

/-- Shallow embedding of `DANNTrainer.on_training_step`.  `lossFn` is the
abstract `nn.CrossEntropyLoss` (logits batch and integer targets to a
scalar); `source_batch` is the `(X_source, y_source)` tuple drawn from the
source loader and `target_batch` the tuple drawn from the target loader,
whose non-feature components (of arbitrary type `T`) the step never
touches, mirroring that only `target_loader[0]` is read.  The incoming
metric states are the trainer's `train_loss` / `train_accuracy` before the
step; both are `reset()` first thing. -/
noncomputable def onTrainingStep {T : Type} (m : DANNModules)
    (lossFn : Batch → List ℕ → ℚ) (lambd : ℚ) (adaption_factor : Bool)
    (train_loss₀ : MeanMetricState) (train_accuracy₀ : AccuracyState)
    (source_batch : Batch × List ℕ) (target_batch : Batch × T)
    (batch_id num_batches epoch_id num_epochs : ℕ) : StepResult :=
  -- self.train_accuracy.reset(); self.train_loss.reset()
  let train_accuracy := AccuracyState.reset
  let train_loss := MeanMetricState.reset
  let X_source := source_batch.1
  let y_source := source_batch.2
  let X_target := target_batch.1
  let X_source_feat := m.extractor X_source
  let y_source_pred := m.classifier X_source_feat
  let gamma := gammaOf adaption_factor batch_id epoch_id num_batches
    num_epochs
  let X_source_rev := GradientReverse.forward X_source_feat gamma
  let y_source_disc := m.domain_classifier X_source_rev
  let X_target_feat := m.extractor X_target
  let X_target_rev := GradientReverse.forward X_target_feat gamma
  let y_target_disc := m.domain_classifier X_target_rev
  let task_loss := lossFn y_source_pred y_source
  -- torch.zeros(len(y_source_disc)) / torch.ones(len(y_target_disc))
  let disc_loss_source :=
    lossFn y_source_disc (List.replicate y_source_disc.length 0)
  let disc_loss_target :=
    lossFn y_target_disc (List.replicate y_target_disc.length 1)
  let dann_loss := lambd * (disc_loss_source + disc_loss_target)
  let loss := task_loss + dann_loss
  -- loss.backward(); self.optimizer.step()
  -- log five times: log_step = math.ceil(num_batches / 5); the metric
  -- updates and the log happen only when batch_id % log_step == 0
  let log_step := logStep num_batches
  { task_loss := task_loss
    disc_loss_source := disc_loss_source
    disc_loss_target := disc_loss_target
    dann_loss := dann_loss
    loss := loss
    gamma := gamma
    backward_losses := [loss]
    optimizer_steps := 1
    train_loss :=
      if batch_id % log_step = 0 then train_loss.update loss
      else train_loss
    train_accuracy :=
      if batch_id % log_step = 0 then
        train_accuracy.update (y_source_pred.map argmaxIdx) y_source
      else train_accuracy
    logged :=
      if batch_id % log_step = 0 then
        some ((train_loss.update loss).compute,
          100 * (train_accuracy.update (y_source_pred.map argmaxIdx)
            y_source).compute)
      else none }

/-! ## Loader pairing in `DANNTrainer.fit` (dann.py lines 258–271) -/

/-- The first `n` elements of `itertools.cycle(xs)`: element `i` is
`xs[i % len(xs)]`; cycling an empty iterable yields nothing. -/
def cycleTake {α : Type} (xs : List α) (n : ℕ) : List α :=
  (List.range n).filterMap (fun i => xs[i % xs.length]?)

/-- The batch pairs one training epoch of `fit` iterates over:
`zip(source_loader, cycle(target_loader))` when the source loader is
longer, else `zip(cycle(source_loader), target_loader)`.  `zip` stops at
the shorter iterator, so truncating the cycle at the longer loader's
length loses nothing. -/
def epochPairs {σ τ : Type} (source : List σ) (target : List τ) :
    List (σ × τ) :=
  if source.length > target.length then
    source.zip (cycleTake target source.length)
  else
    (cycleTake source target.length).zip target

/-! ## `AMIGOSDataset.__getitem__`
(amigos.py lines 134–150) -/

/-- A metadata row (`self.info.iloc[index].to_dict()`): an ordered
association of column names to values. -/
abbrev InfoRow (V : Type) := List (String × V)

/-- `row[key]`: the value under `key` in a metadata row. -/
def rowGet {V : Type} (row : InfoRow V) (key : String) : Option V :=
  (row.find? (fun kv => kv.1 == key)).map Prod.snd

/-- What a label transform may return, distinguished exactly as the
`isinstance` tests in `__getitem__` do: a list, a dict, or anything
else (a scalar). -/
inductive LabelResult (V : Type) where
  | list : List V → LabelResult V
  | dict : InfoRow V → LabelResult V
  | scalar : V → LabelResult V

/-- The state an `AMIGOSDataset` reads from: the metadata table
(`self.info`, one row per sample), the chunk cache
(`self.eeg_io.read_eeg`, keyed by the string form of a clip identifier,
with `clip_str` playing `str`), and the optional online and label
transforms. -/
structure AMIGOSData (E V : Type) where
  info : List (InfoRow V)
  read_eeg : String → Option E
  clip_str : V → String
  online_transform : Option (E → E)
  label_transform : Option (InfoRow V → LabelResult V)

/-- Shallow embedding of `AMIGOSDataset.__getitem__`: look up the metadata
row at `index`, read the cached array under `str(info['clip_id'])`, apply
the online transform to the signal if set and the label transform to the
row if set, then return the signal followed by the expanded label fields —
the list's elements, the dict's values, or the single value.  Python
raises on a bad index, a missing key or a cache miss; those are `none`
here. -/
def getitem {E V : Type} (d : AMIGOSData E V) (index : ℕ) :
    Option (E × List V) :=
  match d.info[index]? with
  | none => none
  | some row =>
    match rowGet row "clip_id" with
    | none => none
    | some clip_id =>
      match d.read_eeg (d.clip_str clip_id) with
      | none => none
      | some eeg₀ =>
        let eeg :=
          match d.online_transform with
          | some f => f eeg₀
          | none => eeg₀
        let info :=
          match d.label_transform with
          | some f => f row
          | none => LabelResult.dict row
        match info with
        | LabelResult.list l => some (eeg, l)
        | LabelResult.dict m => some (eeg, m.map Prod.snd)
        | LabelResult.scalar v => some (eeg, [v])

/-- The claim's reading of the retrieval contract, stated in its own
words: the signal with the online transform applied when one is set. -/
def specSignal {E : Type} (online_transform : Option (E → E)) (eeg₀ : E) :
    E :=
  match online_transform with
  | some f => f eeg₀
  | none => eeg₀

/-- The claim's reading of the label part: the label transform applied to
the metadata row when one is set, else the row itself as a dict. -/
def specLabel {V : Type}
    (label_transform : Option (InfoRow V → LabelResult V))
    (row : InfoRow V) : LabelResult V :=
  match label_transform with
  | some f => f row
  | none => LabelResult.dict row

/-- The claim's expansion of a label result into the tail of the returned
tuple: the elements of a list, the values of a dict, the single value
otherwise. -/
def expandLabel {V : Type} : LabelResult V → List V
  | LabelResult.list l => l
  | LabelResult.dict m => m.map Prod.snd
  | LabelResult.scalar v => [v]

/-! ## `amigos_constructor` used by `AMIGOSDataset.__init__`
(amigos.py lines 112–121) -/

/-- The constructor's configuration: the parameters
`AMIGOSDataset.__init__` forwards to `amigos_constructor`. -/
structure AmigosConfig where
  root_path : String
  chunk_size : ℕ
  overlap : ℕ
  channel_num : ℕ
  trial_num : ℕ
  io_path : String
  deriving Repr, DecidableEq

/-- Modelled from the spec: the body of `amigos_constructor`
(`torcheeg/datasets/functional/emotion_recognition/amigos.py`) is not in
the sources; per the spec it "produces a persisted set of (chunk,
metadata) pairs exactly once per distinct configuration; subsequent
constructions with identical configuration are no-ops that reuse the
cache".  `build` abstracts the chunking of the raw files for a
configuration; `cache` is the cache directory's content at `io_path`, when
one exists.  The result is the cache content after construction and the
number of chunk writes performed. -/
def amigosConstructor {C : Type} (build : AmigosConfig → List C)
    (cache : Option (List C)) (cfg : AmigosConfig) : List C × ℕ :=
  match cache with
  | some entries => (entries, 0)
  | none =>
    let entries := build cfg
    (entries, entries.length)

/-! ## Helper lemmas -/

theorem MeanMetricState.compute_single (v : ℚ) :
    (MeanMetricState.reset.update v).compute = v := by
  simp [MeanMetricState.reset, MeanMetricState.update,
    MeanMetricState.compute]

theorem cycleTake_nil {α : Type} (n : ℕ) :
    cycleTake ([] : List α) n = [] := by
  simp [cycleTake]

theorem cycleTake_succ {α : Type} (xs : List α) (n : ℕ) :
    cycleTake xs (n + 1) =
      cycleTake xs n ++ (xs[n % xs.length]?).toList := by
  show (List.range (n + 1)).filterMap (fun i => xs[i % xs.length]?) = _
  rw [List.range_succ, List.filterMap_append]
  congr 1

theorem cycleTake_length {α : Type} (xs : List α) (h : xs ≠ []) (n : ℕ) :
    (cycleTake xs n).length = n := by
  induction n with
  | zero => rfl
  | succ k ih =>
    have hk : k % xs.length < xs.length :=
      Nat.mod_lt _ (List.length_pos.mpr h)
    rw [cycleTake_succ]
    simp [ih, List.getElem?_eq_getElem hk]

theorem cycleTake_getElem? {α : Type} (xs : List α) (h : xs ≠ [])
    {n i : ℕ} (hi : i < n) :
    (cycleTake xs n)[i]? = xs[i % xs.length]? := by
  induction n with
  | zero => omega
  | succ k ih =>
    rw [cycleTake_succ, List.getElem?_append]
    rcases Nat.lt_succ_iff_lt_or_eq.mp hi with h' | h'
    · rw [if_pos (by rw [cycleTake_length xs h]; exact h')]
      exact ih h'
    · subst h'
      have hk : i % xs.length < xs.length :=
        Nat.mod_lt _ (List.length_pos.mpr h)
      rw [if_neg (by rw [cycleTake_length xs h]; omega)]
      simp [cycleTake_length xs h, List.getElem?_eq_getElem hk]

theorem zip_getElem? {α β : Type} (l₁ : List α) (l₂ : List β) (i : ℕ) :
    (l₁.zip l₂)[i]? =
      (l₁[i]?).bind (fun a => (l₂[i]?).map (fun b => (a, b))) := by
  induction l₁ generalizing l₂ i with
  | nil => simp
  | cons x xs ih =>
    cases l₂ with
    | nil => simp
    | cons y ys =>
      cases i with
      | zero => simp
      | succ j => simpa using ih ys j

theorem getitem_eq {E V : Type} (d : AMIGOSData E V) (index : ℕ)
    (row : InfoRow V) (clip_id : V) (eeg₀ : E)
    (hrow : d.info[index]? = some row)
    (hclip : rowGet row "clip_id" = some clip_id)
    (heeg : d.read_eeg (d.clip_str clip_id) = some eeg₀) :
    getitem d index =
      some (specSignal d.online_transform eeg₀,
        expandLabel (specLabel d.label_transform row)) := by
  simp only [getitem, hrow, hclip, heeg]
  cases d.online_transform with
  | none =>
    cases hl : d.label_transform with
    | none => simp [specSignal, specLabel, expandLabel]
    | some f =>
      simp only [specSignal, specLabel, expandLabel]
      generalize f row = fr
      cases fr <;> rfl
  | some g =>
    cases hl : d.label_transform with
    | none => simp [specSignal, specLabel, expandLabel]
    | some f =>
      simp only [specSignal, specLabel, expandLabel]
      generalize f row = fr
      cases fr <;> rfl

/-! ## Claim theorems -/

/-- Claim C1: for every input tensor `x` and every scalar `alpha`, the
gradient-reversal operation's forward pass returns `x` unchanged
(independent of `alpha`), and its backward pass maps an incoming gradient
`g` to `-alpha * g` elementwise, returning no gradient for `alpha`. -/
theorem gradient_reverse_correct (x g : List (List ℝ)) (alpha : ℝ) :
    GradientReverse.forward x alpha = x ∧
    GradientReverse.backward alpha g =
      (g.map (fun row => row.map (fun v => -alpha * v)), none) := by
  have hfun : (fun v : ℝ => -v * alpha) = fun v : ℝ => -alpha * v := by
    funext v; ring
  exact ⟨rfl, by simp only [GradientReverse.backward, hfun]⟩

/-- Claim C4: with the adaptive schedule enabled the reversal coefficient is
`2 / (1 + exp (-10 p)) - 1` at
`p = (batch_id + epoch_id * num_batches) / (num_epochs * num_batches)`;
disabled, it is the constant `1.0`; the adaptive coefficient is `0` at
`p = 0` (step `0` of epoch `0`) and `2 / (1 + exp (-5)) - 1` at
`p = 1/2`. -/
theorem gamma_schedule_correct (batch_id epoch_id num_batches
    num_epochs : ℕ) :
    gammaOf true batch_id epoch_id num_batches num_epochs =
      gammaAdaptive (((batch_id : ℝ) + (epoch_id : ℝ) * (num_batches : ℝ)) /
        ((num_epochs : ℝ) * (num_batches : ℝ))) ∧
    gammaOf false batch_id epoch_id num_batches num_epochs = 1 ∧
    gammaOf true 0 0 num_batches num_epochs = 0 ∧
    gammaAdaptive 0 = 0 ∧
    gammaAdaptive (1 / 2) = 2 / (1 + Real.exp (-5)) - 1 := by
  have hzero : gammaAdaptive 0 = 0 := by
    simp [gammaAdaptive, Real.exp_zero]
    norm_num
  refine ⟨?_, ?_, ?_, hzero, ?_⟩
  · simp [gammaOf, gammaAdaptive, div_div]
  · norm_num [gammaOf]
  · have : gammaOf true 0 0 num_batches num_epochs =
        gammaAdaptive ((0 : ℝ) / (num_epochs : ℝ) / (num_batches : ℝ)) := by
      simp [gammaOf, gammaAdaptive]
    rw [this, zero_div, zero_div, hzero]
  · have : (-10 : ℝ) * (1 / 2) = -5 := by norm_num
    simp only [gammaAdaptive, this]

/-- Claim C7: trainer construction fails with `ValueError` exactly when
`num_classes` is not passed and the classifier has no `num_classes`
attribute; otherwise the trainer's `num_classes` is the passed value when
given, else the classifier's attribute. -/
theorem num_classes_resolution_correct (attr : Option ℕ) (n m : ℕ) :
    resolveNumClasses none none =
      Except.error "The number of classes is not specified." ∧
    resolveNumClasses (some n) attr = Except.ok n ∧
    resolveNumClasses none (some m) = Except.ok m :=
  ⟨rfl, rfl, rfl⟩

/-- Claim C2: on every training step the total loss equals the task loss — the
cross-entropy of `classifier(extractor(X_source))` against the source
labels — plus `lambd` times the domain loss, the cross-entropy of the
domain classifier applied through gradient reversal on source features
against the constant class index `0` plus the same on target features
against the constant class index `1`; `backward()` is called once, on that
total loss, and the optimizer — built over the chained parameters of
extractor, classifier and domain classifier — steps once. -/
theorem training_step_loss_and_joint_update {T P : Type}
    (m : DANNModules) (lossFn : Batch → List ℕ → ℚ) (lambd : ℚ)
    (af : Bool) (tl₀ : MeanMetricState) (ta₀ : AccuracyState)
    (sb : Batch × List ℕ) (tb : Batch × T) (b nb e ne : ℕ)
    (extractor_params classifier_params domain_classifier_params :
      List P) :
    (onTrainingStep m lossFn lambd af tl₀ ta₀ sb tb b nb e ne).loss =
      lossFn (m.classifier (m.extractor sb.1)) sb.2 +
        lambd *
          (lossFn
              (m.domain_classifier
                (GradientReverse.forward (m.extractor sb.1)
                  (gammaOf af b e nb ne)))
              (List.replicate
                (m.domain_classifier
                  (GradientReverse.forward (m.extractor sb.1)
                    (gammaOf af b e nb ne))).length 0) +
            lossFn
              (m.domain_classifier
                (GradientReverse.forward (m.extractor tb.1)
                  (gammaOf af b e nb ne)))
              (List.replicate
                (m.domain_classifier
                  (GradientReverse.forward (m.extractor tb.1)
                    (gammaOf af b e nb ne))).length 1)) ∧
    (onTrainingStep m lossFn lambd af tl₀ ta₀ sb tb b nb e
        ne).backward_losses =
      [(onTrainingStep m lossFn lambd af tl₀ ta₀ sb tb b nb e ne).loss] ∧
    (onTrainingStep m lossFn lambd af tl₀ ta₀ sb tb b nb e
        ne).optimizer_steps = 1 ∧
    optimizerParams extractor_params classifier_params
        domain_classifier_params =
      extractor_params ++ classifier_params ++ domain_classifier_params :=
  ⟨rfl, rfl, rfl, rfl⟩

/-- Claim C6: a training step's result depends on the target batch only through
its feature component: two target batches with equal first elements — of
possibly different label-component types — yield identical step
results. -/
theorem training_step_ignores_target_labels {T₁ T₂ : Type}
    (m : DANNModules) (lossFn : Batch → List ℕ → ℚ) (lambd : ℚ)
    (af : Bool) (tl₀ : MeanMetricState) (ta₀ : AccuracyState)
    (sb : Batch × List ℕ) (tb₁ : Batch × T₁) (tb₂ : Batch × T₂)
    (b nb e ne : ℕ) (h : tb₁.1 = tb₂.1) :
    onTrainingStep m lossFn lambd af tl₀ ta₀ sb tb₁ b nb e ne =
      onTrainingStep m lossFn lambd af tl₀ ta₀ sb tb₂ b nb e ne := by
  obtain ⟨f₁, l₁⟩ := tb₁
  obtain ⟨f₂, l₂⟩ := tb₂
  dsimp only at h
  subst h
  rfl

theorem training_step_ignores_target_labels_witness :
    onTrainingStep ⟨id, id, id⟩ (fun _ _ => 0) 1 false
        MeanMetricState.reset AccuracyState.reset ([[1]], [0])
        ([[2]], [7]) 0 1 0 1 =
      onTrainingStep ⟨id, id, id⟩ (fun _ _ => 0) 1 false
        MeanMetricState.reset AccuracyState.reset ([[1]], [0])
        ([[2]], ()) 0 1 0 1 :=
  training_step_ignores_target_labels ⟨id, id, id⟩ (fun _ _ => 0) 1 false
    MeanMetricState.reset AccuracyState.reset ([[1]], [0]) ([[2]], [7])
    ([[2]], ()) 0 1 0 1 rfl

/-- Claim C8: the train-loss and train-accuracy accumulators are reset at the
start of every training step (the step's outcome is independent of the
incoming accumulator states), they are updated only on steps with
`batch_id % ceil(num_batches / 5) = 0`, and on those steps the logged
value is the mean of the freshly reset accumulator holding just the
current batch's loss — which equals that loss itself — so every logged
training metric reflects only the single most recent sampled batch. -/
theorem training_step_metric_logging {T : Type} (m : DANNModules)
    (lossFn : Batch → List ℕ → ℚ) (lambd : ℚ) (af : Bool)
    (tl₀ tl₀' : MeanMetricState) (ta₀ ta₀' : AccuracyState)
    (sb : Batch × List ℕ) (tb : Batch × T) (b nb e ne : ℕ) :
    onTrainingStep m lossFn lambd af tl₀ ta₀ sb tb b nb e ne =
      onTrainingStep m lossFn lambd af tl₀' ta₀' sb tb b nb e ne ∧
    (onTrainingStep m lossFn lambd af tl₀ ta₀ sb tb b nb e
        ne).train_loss =
      (if b % logStep nb = 0 then
        MeanMetricState.reset.update
          (onTrainingStep m lossFn lambd af tl₀ ta₀ sb tb b nb e ne).loss
      else MeanMetricState.reset) ∧
    (onTrainingStep m lossFn lambd af tl₀ ta₀ sb tb b nb e
        ne).train_accuracy =
      (if b % logStep nb = 0 then
        AccuracyState.reset.update
          ((m.classifier (m.extractor sb.1)).map argmaxIdx) sb.2
      else AccuracyState.reset) ∧
    (onTrainingStep m lossFn lambd af tl₀ ta₀ sb tb b nb e ne).logged =
      (if b % logStep nb = 0 then
        some
          ((MeanMetricState.reset.update
              (onTrainingStep m lossFn lambd af tl₀ ta₀ sb tb b nb e
                ne).loss).compute,
            100 *
              (AccuracyState.reset.update
                ((m.classifier (m.extractor sb.1)).map argmaxIdx)
                sb.2).compute)
      else none) ∧
    (MeanMetricState.reset.update
        (onTrainingStep m lossFn lambd af tl₀ ta₀ sb tb b nb e
          ne).loss).compute =
      (onTrainingStep m lossFn lambd af tl₀ ta₀ sb tb b nb e ne).loss :=
  ⟨rfl, rfl, rfl, rfl, MeanMetricState.compute_single _⟩

/-- Claim C5: for a valid index whose metadata row carries a clip identifier
with a cached array, `__getitem__` returns the online-transformed signal
followed by the expanded label fields of the label-transformed row (the
elements of a list, the values of a dict, the single value otherwise);
the embedding is a pure function of the dataset state, so retrieval is
deterministic and side-effect free given fixed cache contents. -/
theorem getitem_retrieval_correct {E V : Type} (d : AMIGOSData E V)
    (index : ℕ) (row : InfoRow V) (clip_id : V) (eeg₀ : E)
    (hrow : d.info[index]? = some row)
    (hclip : rowGet row "clip_id" = some clip_id)
    (heeg : d.read_eeg (d.clip_str clip_id) = some eeg₀) :
    getitem d index =
      some (specSignal d.online_transform eeg₀,
        expandLabel (specLabel d.label_transform row)) :=
  getitem_eq d index row clip_id eeg₀ hrow hclip heeg

theorem getitem_retrieval_correct_witness :
    getitem
        (⟨[[("clip_id", 7), ("valence", 3)]],
          fun s => if s = "7" then some [(1 : ℚ), 2] else none,
          fun v : ℕ => toString v, none, none⟩ :
          AMIGOSData (List ℚ) ℕ) 0 =
      some ([(1 : ℚ), 2], [7, 3]) :=
  getitem_retrieval_correct
    (⟨[[("clip_id", 7), ("valence", 3)]],
      fun s => if s = "7" then some [(1 : ℚ), 2] else none,
      fun v : ℕ => toString v, none, none⟩ : AMIGOSData (List ℚ) ℕ)
    0 [("clip_id", 7), ("valence", 3)] 7 [1, 2] rfl rfl rfl

/-- Claim C10: when no label transform is set, `__getitem__` returns the signal
followed by the values of every column of the metadata row — the clip
identifier included — expanded into the result tuple. -/
theorem getitem_default_label_expands_row {E V : Type}
    (d : AMIGOSData E V) (index : ℕ) (row : InfoRow V) (clip_id : V)
    (eeg₀ : E) (hlab : d.label_transform = none)
    (hrow : d.info[index]? = some row)
    (hclip : rowGet row "clip_id" = some clip_id)
    (heeg : d.read_eeg (d.clip_str clip_id) = some eeg₀) :
    getitem d index =
      some (specSignal d.online_transform eeg₀, row.map Prod.snd) ∧
    clip_id ∈ row.map Prod.snd := by
  constructor
  · rw [getitem_eq d index row clip_id eeg₀ hrow hclip heeg, hlab]
    rfl
  · obtain ⟨kv, hkv, hsnd⟩ := Option.map_eq_some'.mp hclip
    rw [← hsnd]
    exact List.mem_map_of_mem Prod.snd (List.mem_of_find?_eq_some hkv)

theorem getitem_default_label_expands_row_witness :
    getitem
        (⟨[[("clip_id", 5), ("arousal", 9)]],
          fun s => if s = "5" then some [(3 : ℚ)] else none,
          fun v : ℕ => toString v, none, none⟩ :
          AMIGOSData (List ℚ) ℕ) 0 =
      some ([(3 : ℚ)], [5, 9]) ∧
    (5 : ℕ) ∈ [(("clip_id" : String), (5 : ℕ)),
      ("arousal", 9)].map Prod.snd :=
  getitem_default_label_expands_row
    (⟨[[("clip_id", 5), ("arousal", 9)]],
      fun s => if s = "5" then some [(3 : ℚ)] else none,
      fun v : ℕ => toString v, none, none⟩ : AMIGOSData (List ℚ) ℕ)
    0 [("clip_id", 5), ("arousal", 9)] 5 [3] rfl rfl rfl rfl

/-- Claim C3 (amended): provided an empty loader occurs only when the other is
also empty, one training epoch of `fit` executes exactly
`max (len source) (len target)` steps, step `i` pairing batch
`source[i % len source]` with batch `target[i % len target]` — the
shorter loader cycling from its start; in particular, with source length
10 and target length 4, the target batches appear in the order
`0,1,2,3,0,1,2,3,0,1`.  (As originally stated the claim fails when
exactly one loader is empty: `zip` with `cycle` of an empty iterator
yields zero steps, not `max`.) -/
theorem fit_epoch_pairing {σ τ : Type} (source : List σ)
    (target : List τ) (i : ℕ) (hempty : source = [] ↔ target = [])
    (hi : i < max source.length target.length) :
    (epochPairs source target).length =
      max source.length target.length ∧
    (epochPairs source target)[i]? =
      (source[i % source.length]?).bind (fun a =>
        (target[i % target.length]?).map (fun b => (a, b))) ∧
    (epochPairs (List.range 10) [0, 1, 2, 3]).map Prod.snd =
      [0, 1, 2, 3, 0, 1, 2, 3, 0, 1] := by
  have hconc : (epochPairs (List.range 10) [0, 1, 2, 3]).map Prod.snd =
      [0, 1, 2, 3, 0, 1, 2, 3, 0, 1] := by decide
  by_cases hs : source = []
  · have ht : target = [] := hempty.mp hs
    rw [hs, ht] at hi
    simp at hi
  · have ht : target ≠ [] := fun h => hs (hempty.mpr h)
    have hslen : 0 < source.length := List.length_pos.mpr hs
    have htlen : 0 < target.length := List.length_pos.mpr ht
    unfold epochPairs
    by_cases hgt : source.length > target.length
    · rw [if_pos hgt]
      have hi' : i < source.length := by omega
      refine ⟨?_, ?_, hconc⟩
      · rw [List.length_zip, cycleTake_length target ht]
        omega
      · rw [zip_getElem?, cycleTake_getElem? target ht hi',
          Nat.mod_eq_of_lt hi']
    · rw [if_neg hgt]
      have hle : source.length ≤ target.length := Nat.not_lt.mp hgt
      have hi' : i < target.length := by omega
      refine ⟨?_, ?_, hconc⟩
      · rw [List.length_zip, cycleTake_length source hs]
        omega
      · rw [zip_getElem?, cycleTake_getElem? source hs hi',
          Nat.mod_eq_of_lt hi']

theorem fit_epoch_pairing_witness :
    (epochPairs (List.range 10) [0, 1, 2, 3]).length =
      max (List.range 10).length ([0, 1, 2, 3] : List ℕ).length ∧
    (epochPairs (List.range 10) [0, 1, 2, 3])[5]? =
      ((List.range 10)[5 % (List.range 10).length]?).bind (fun a =>
        (([0, 1, 2, 3] : List ℕ)[5 %
            ([0, 1, 2, 3] : List ℕ).length]?).map (fun b => (a, b))) ∧
    (epochPairs (List.range 10) [0, 1, 2, 3]).map Prod.snd =
      [0, 1, 2, 3, 0, 1, 2, 3, 0, 1] :=
  fit_epoch_pairing (List.range 10) [0, 1, 2, 3] 5 (by decide)
    (by decide)

/-- Claim C3 counterexample: with a two-batch source loader and an empty target
loader, `zip(source, cycle(target))` yields zero pairs, so the epoch does
not execute `max(len(source), len(target)) = 2` steps. -/
theorem fit_epoch_pairing_cex :
    (epochPairs [0, 1] ([] : List ℕ)).length ≠
      max ([0, 1] : List ℕ).length ([] : List ℕ).length := by decide

/-- Claim C9: constructing the dataset a second time with an identical
configuration against the cache produced by the first construction
performs zero chunk writes and reuses the cache contents unchanged. -/
theorem amigos_constructor_idempotent {C : Type}
    (build : AmigosConfig → List C) (cfg : AmigosConfig) :
    amigosConstructor build (some (amigosConstructor build none cfg).1)
        cfg =
      ((amigosConstructor build none cfg).1, 0) :=
  rfl

end Torcheeg
